import Mathlib

/-!
Verification development for the `email_processor` repository
(`src/email_processor/command.py`, `src/email_processor/util.py`).

The code is Python 2 (the coroutine decorator calls `cr.next()`), so file
contents and header values are plain strings.  Labels/tags are modelled as
`String`, index tag sets as `Finset String`, and the per-message state of a
`MessageProxy` together with the underlying notmuch message handle as the
structure `MsgState` below.  The two process-wide flags `MessageProxy.debug`
and `MessageProxy.dryrun` are modelled as an explicit `Config` value.
-/

abbrev Label := String

/-- The tag-mutation calls a pipeline stage issues on a `MessageProxy`,
and (when forwarded) on the underlying notmuch message handle. -/
inductive Call where
  | add (t : Label)
  | remove (t : Label)
deriving DecidableEq

/-- Python exceptions relevant to this program.  The spec's
`InvariantViolationError` is the `AssertionError` raised by the `assert`
statements in `MessageProxy.add_tag` (util.py 194-195); the spec's
`MissingMetadataError` is the `AttributeError` raised by
`MessageProxy._get_keywords` (util.py 169); notmuch surfaces an empty query
result as `NullPointerError` (command.py 197). -/
inductive PyError where
  | attributeError
  | assertionError
  | typeError
  | nullPointerError
deriving DecidableEq

/-- State of one message: the tag list recorded in the index for the wrapped
notmuch handle (`_msg`, as enumerated by `get_tags()`; the index stores each
tag once, so the list is duplicate-free), the external keyword list parsed
from the message file's `X-Keywords:` header (`none` models a file without
that marker, where `_get_keywords` raises `AttributeError`, util.py 166-172),
the two debug observation sets `_add_tags` / `_remove_tags` (util.py 57-58),
and the list of mutations actually forwarded to the underlying handle. -/
structure MsgState where
  tags : List Label
  keywords : Option (List Label)
  addObs : Finset Label
  removeObs : Finset Label
  indexCalls : List Call
deriving DecidableEq

/-- The process-wide flags `MessageProxy.debug` / `MessageProxy.dryrun`
(util.py 49-50, set by the CLI group in command.py 204-206). -/
structure Config where
  debug : Bool
  dryrun : Bool
deriving DecidableEq

/-! ## LabelSet codec: `toggle_header` (command.py 13-20, 48-58) -/

/-- Table `GMAIL_HEADERS_TO_TAGS` (command.py 13-18). -/
def GMAIL_HEADERS_TO_TAGS : List (Label × Label) :=
  [("\\Important", "important"),
   ("\\Starred", "flagged"),
   ("\\Sent", "sent"),
   ("\\Draft", "draft"),
   ("\\Inbox", "inbox")]

/-- Table `GMAIL_TAGS_TO_HEADERS = {v: k for k, v in GMAIL_HEADERS_TO_TAGS.items()}`
(command.py 20). -/
def GMAIL_TAGS_TO_HEADERS : List (Label × Label) :=
  GMAIL_HEADERS_TO_TAGS.map (fun p => (p.2, p.1))

/-- Dictionary lookup, `d[k]` returning `none` for a `KeyError`. -/
def dictGet (d : List (Label × Label)) (k : Label) : Option Label :=
  (d.find? (fun p => p.1 = k)).map (fun p => p.2)

/-- Function `toggle_header` (command.py 48-58): forward table, then reverse table,
then identity fallback. -/
def toggle_header (item : Label) : Label :=
  match dictGet GMAIL_HEADERS_TO_TAGS item with
  | some v => v
  | none =>
    match dictGet GMAIL_TAGS_TO_HEADERS item with
    | some v => v
    | none => item

/-! ## Exclusion sets (command.py 22-32) -/

/-- Set `maildir_tags` (command.py 22-28). -/
def maildir_tags : Finset Label :=
  {"unread", "draft", "flagged", "passed", "signed", "replied"}

/-- Set `exclude_sync_tags = set(['new']) | maildir_tags` (command.py 30-32). -/
def exclude_sync_tags : Finset Label := {"new"} ∪ maildir_tags

/-! ## MessageProxy tag mutation (util.py 193-214) -/

/-- The debug-mode recording step of `add_tag` (util.py 197-198):
`self._add_tags = self._add_tags | set(["+" + tag])`. -/
def record_add (cfg : Config) (m : MsgState) (tag : Label) : MsgState :=
  if cfg.debug then { m with addObs := insert ("+" ++ tag) m.addObs } else m

/-- The debug-mode recording step of `remove_tag` (util.py 207-208):
`self._remove_tags = self._remove_tags | set(["-" + tag])`. -/
def record_remove (cfg : Config) (m : MsgState) (tag : Label) : MsgState :=
  if cfg.debug then { m with removeObs := insert ("-" ++ tag) m.removeObs } else m

namespace MessageProxy

/-- Method `MessageProxy.add_tag` (util.py 193-204) on a valid (non-empty) label,
with the collaborator effect of `self._msg.add_tag(tag, ...)` folded in as
inserting into the index tag set and appending to `indexCalls`.  The
assertion guards at entry are modelled separately by `add_tag_entry`. -/
def add_tag (cfg : Config) (m : MsgState) (tag : Label) : MsgState :=
  let m1 := record_add cfg m tag
  if cfg.dryrun then m1
  else { m1 with tags := if tag ∈ m1.tags then m1.tags else m1.tags ++ [tag],
                 indexCalls := m1.indexCalls ++ [Call.add tag] }

/-- Method `MessageProxy.remove_tag` (util.py 206-214) on a string label, with the
collaborator effect of `self._msg.remove_tag(tag, ...)` folded in as erasing
from the index tag set and appending to `indexCalls`.  The source method has
no assertion guards; `remove_tag_entry` models its entry behaviour on
arbitrary (possibly `None`) arguments. -/
def remove_tag (cfg : Config) (m : MsgState) (tag : Label) : MsgState :=
  let m1 := record_remove cfg m tag
  if cfg.dryrun then m1
  else { m1 with tags := m1.tags.filter (fun t => t ≠ tag),
                 indexCalls := m1.indexCalls ++ [Call.remove tag] }

end MessageProxy

/-- Outcome of entering `add_tag` / `remove_tag` with an arbitrary argument:
either an exception is raised inside the method, or the method completes in
dry-run mode returning `notmuch.STATUS.SUCCESS` without touching the handle,
or the mutation is forwarded to the underlying notmuch handle. -/
inductive EntryOutcome where
  | raised (e : PyError)
  | success (m : MsgState)
  | forwarded (m : MsgState) (tag : Option Label)
deriving DecidableEq

/-- Entry behaviour of `MessageProxy.add_tag` (util.py 193-204) on an
arbitrary argument (`none` models Python `None`): `assert tag is not None`
then `assert tag is not ""` (each failing with `AssertionError`, the spec's
`InvariantViolationError`), then debug recording, then the dry-run check. -/
def add_tag_entry (cfg : Config) (m : MsgState) (tag : Option Label) : EntryOutcome :=
  match tag with
  | none => .raised .assertionError
  | some t =>
    if t = "" then .raised .assertionError
    else
      let m1 := record_add cfg m t
      if cfg.dryrun then .success m1 else .forwarded m1 (some t)

/-- Entry behaviour of `MessageProxy.remove_tag` (util.py 206-214) on an
arbitrary argument.  The source has no assertions: a `None` tag in debug
mode fails with `TypeError` while evaluating `"-" + tag` (util.py 208),
otherwise the argument goes through unvalidated (dry-run: returns
`notmuch.STATUS.SUCCESS`; else forwarded to the handle). -/
def remove_tag_entry (cfg : Config) (m : MsgState) (tag : Option Label) : EntryOutcome :=
  match tag with
  | none =>
    if cfg.debug then .raised .typeError
    else if cfg.dryrun then .success m
    else .forwarded m none
  | some t =>
    let m1 := record_remove cfg m t
    if cfg.dryrun then .success m1 else .forwarded m1 (some t)

/-! ## The reconciliation stage `sync_gmail_tags` (command.py 93-109) -/

/-- The internal tag set as computed by `sync_gmail_tags` (command.py 96-97):
`set(str(t) for t in message.get_tags() if t not in exclude_sync_tags)`.
The Python set is modelled as a duplicate-free list. -/
def internal_tags (m : MsgState) : List Label :=
  (m.tags.filter (fun t => t ∉ exclude_sync_tags)).dedup

/-- The translated external keyword set of `sync_gmail_tags` (command.py 99):
`set(toggle_header(t) for t in message.get_keywords())`, again as a
duplicate-free list. -/
def translate_keywords (kws : List Label) : List Label :=
  (kws.map toggle_header).dedup

/-- The body of the `sync_gmail_tags` stage (command.py 93-109).  Returns the
resulting message state paired with the list of proxy tag-mutation calls it
issued.  `m.keywords = none` is the case where `get_keywords` raises
`AttributeError` (no `X-Keywords:` header), caught at command.py 100-101 by
returning the message untouched. -/
def sync_gmail_tags (cfg : Config) (m : MsgState) : MsgState × List Call :=
  let tags := internal_tags m
  match m.keywords with
  | none => (m, [])
  | some kws =>
    let keywords := translate_keywords kws
    let to_remove := tags.filter (fun t => t ∉ keywords)
    let to_add := keywords.filter (fun t => t ∉ tags)
    let m1 := to_remove.foldl (fun acc t => MessageProxy.remove_tag cfg acc t) m
    let m2 := to_add.foldl (fun acc t => MessageProxy.add_tag cfg acc t) m1
    (m2, to_remove.map Call.remove ++ to_add.map Call.add)

/-! ## Signature stripping (util.py 60-111) -/

/-- Predicate `signature_line_re.match(line)` (util.py 60): the line starts with one of
the five two-character delimiters, checked on the line's character list. -/
def signature_line_match (line : String) : Bool :=
  match line.data with
  | c1 :: c2 :: _ =>
    (c1 == '-' && c2 == '-') || (c1 == '_' && c2 == '_') ||
    (c1 == '=' && c2 == '=') || (c1 == '*' && c2 == '*') ||
    (c1 == '#' && c2 == '#')
  | _ => false

/-- The scanning loop of `_strip_signatures` (util.py 95-109) over the
reversed line list, carrying the enumeration index `n`, the current
`siglines`, and `sigline_count`; returns the final `siglines`. -/
def strip_signatures_loop (lines : List String) (n siglines sigline_count maxsig : Nat) : Nat :=
  match lines with
  | [] => siglines
  | line :: rest =>
    let (siglines, sigline_count) :=
      if signature_line_match line then (n + 1, 0) else (siglines, sigline_count)
    if sigline_count ≥ maxsig then siglines
    else strip_signatures_loop rest (n + 1) siglines (sigline_count + 1) maxsig

/-- Method `MessageProxy._strip_signatures` (util.py 62-111).  The return statement
is `lines[:-siglines]`, which for `siglines = 0` is `lines[:0]`, the empty
list. -/
def strip_signatures (lines : List String) (max_signature_size : Nat := 10) : List String :=
  let siglines := strip_signatures_loop lines.reverse 0 0 0 max_signature_size
  if siglines = 0 then [] else lines.take (lines.length - siglines)

/-! ## Pipeline engine (util.py 34-43, command.py 61-91) -/

/-- A chain element: consumes one message together with the ambient world
state (used below to model logging), producing the new world state.  This is
the `submit`/`send` view of a primed coroutine. -/
def Consumer (σ : Type) := MsgState → σ → σ

/-- The `stage` decorator (command.py 69-78): on each received message, run
the wrapped transformation and forward its result to the bound target. -/
def stage (f : MsgState → σ → MsgState × σ) (target : Consumer σ) : Consumer σ :=
  fun msg s =>
    let r := f msg s
    target r.1 r.2

/-- The `sink` decorator (command.py 80-90): on each received message, run
the wrapped consumer; nothing is forwarded. -/
def sink (f : MsgState → σ → σ) : Consumer σ := f

/-- Constructor `Pipeline.__init__` (util.py 38-40):
`functools.reduce(lambda a, b: b(a), pipeline[::-1])` over the list
`[stage_1, ..., stage_n, terminal]` — the reversed list starts with the
terminal, which seeds the reduction, and each stage is then applied to the
consumer built so far. -/
def Pipeline.build (stages : List (Consumer σ → Consumer σ)) (terminal : Consumer σ) : Consumer σ :=
  stages.reverse.foldl (fun a b => b a) terminal

/-- The attribute names the `Pipeline` class defines (util.py 34-43): only
its constructor and `send`. -/
def pipelineAttrs : List String := ["__init__", "send"]

/-- Python attribute lookup on a `Pipeline` instance (neither the class nor
`object` defines anything else that matters here). -/
def pipelineHasAttr (name : String) : Bool := pipelineAttrs.contains name

/-- Function `process_pipeline` (command.py 190-199) with the query result modelled as
`Option (List MsgState)`: `none` models notmuch raising `NullPointerError`
for a query matching no messages (spec section 6).  Returns the emitted log
lines and either the final world state or the uncaught exception.  In the
`none` case the handler logs, then evaluates `pipeline.close()`: if the
`Pipeline` object has no `close` attribute the lookup itself raises
`AttributeError`. -/
def process_pipeline (msgs : Option (List MsgState)) (chain : Consumer σ) (s : σ) :
    List String × Except PyError σ :=
  match msgs with
  | some l => ([], .ok (l.foldl (fun acc m => chain m acc) s))
  | none =>
    (["Query returned no results"],
     if pipelineHasAttr "close" then .ok s else .error .attributeError)

/-- The edit set `tags - keywords` of `sync_gmail_tags` (command.py 103). -/
def to_remove_set (m : MsgState) (kws : List Label) : List Label :=
  (internal_tags m).filter (fun t => t ∉ translate_keywords kws)

/-- The edit set `keywords - tags` of `sync_gmail_tags` (command.py 106). -/
def to_add_set (m : MsgState) (kws : List Label) : List Label :=
  (translate_keywords kws).filter (fun t => t ∉ internal_tags m)

/-! ## Instrumented pipeline elements for the ordering property (spec section 8) -/

/-- A stage that appends a marker to the log sequence and forwards the
message unchanged, as in the spec's pipeline-ordering test. -/
def logStage (nm : String) : Consumer (List String) → Consumer (List String) :=
  stage (fun msg s => (msg, s ++ [nm]))

/-- A terminal consumer that records the final log sequence (it just keeps
the accumulated world state, which the chain returns). -/
def logSink : Consumer (List String) := sink (fun _ s => s)

/-! ## Concrete message states used as witnesses and counterexamples -/

/-- A message indexed with tag `foo` whose `X-Keywords:` header holds
`\Starred` (which `toggle_header` translates to the excluded tag
`flagged`). -/
def mStarred : MsgState := ⟨["foo"], some ["\\Starred"], ∅, ∅, []⟩

/-- A message indexed with tag `foo` whose `X-Keywords:` header holds the
unmapped label `custom`. -/
def mCustom : MsgState := ⟨["foo"], some ["custom"], ∅, ∅, []⟩

/-- A message indexed with tag `foo` whose file has no `X-Keywords:`
header. -/
def mNoKw : MsgState := ⟨["foo"], none, ∅, ∅, []⟩

/-- A fresh message with no tags, no keywords header and empty observation
sets. -/
def mBlank : MsgState := ⟨[], none, ∅, ∅, []⟩

/-! ## Supporting lemmas -/

/-- Source fidelity: the two doctest examples of `_strip_signatures`
(util.py 75-92) evaluate as documented. -/
lemma strip_signatures_doctests :
    strip_signatures ["Huhu", "--", "Ikke"] = ["Huhu"] ∧
    strip_signatures ["Huhu", "--", "Ikke", "**", "a", "b", "c", "d", "e"] 5 = ["Huhu"] := by
  constructor <;> decide

lemma record_add_tags (cfg : Config) (m : MsgState) (t : Label) :
    (record_add cfg m t).tags = m.tags := by
  unfold record_add; split <;> rfl

lemma record_add_keywords (cfg : Config) (m : MsgState) (t : Label) :
    (record_add cfg m t).keywords = m.keywords := by
  unfold record_add; split <;> rfl

lemma record_remove_tags (cfg : Config) (m : MsgState) (t : Label) :
    (record_remove cfg m t).tags = m.tags := by
  unfold record_remove; split <;> rfl

lemma record_remove_keywords (cfg : Config) (m : MsgState) (t : Label) :
    (record_remove cfg m t).keywords = m.keywords := by
  unfold record_remove; split <;> rfl

lemma add_tag_keywords (cfg : Config) (m : MsgState) (t : Label) :
    (MessageProxy.add_tag cfg m t).keywords = m.keywords := by
  unfold MessageProxy.add_tag
  split
  · exact record_add_keywords cfg m t
  · exact record_add_keywords cfg m t

lemma remove_tag_keywords (cfg : Config) (m : MsgState) (t : Label) :
    (MessageProxy.remove_tag cfg m t).keywords = m.keywords := by
  unfold MessageProxy.remove_tag
  split
  · exact record_remove_keywords cfg m t
  · exact record_remove_keywords cfg m t

lemma add_tag_tags (cfg : Config) (m : MsgState) (t : Label) :
    (MessageProxy.add_tag cfg m t).tags =
      if cfg.dryrun then m.tags
      else if t ∈ m.tags then m.tags else m.tags ++ [t] := by
  unfold MessageProxy.add_tag
  rcases h : cfg.dryrun <;> simp [h, record_add_tags]

lemma remove_tag_tags (cfg : Config) (m : MsgState) (t : Label) :
    (MessageProxy.remove_tag cfg m t).tags =
      if cfg.dryrun then m.tags else m.tags.filter (fun x => x ≠ t) := by
  unfold MessageProxy.remove_tag
  rcases h : cfg.dryrun <;> simp [h, record_remove_tags]

lemma foldl_remove_keywords (cfg : Config) (l : List Label) (m : MsgState) :
    (l.foldl (fun acc t => MessageProxy.remove_tag cfg acc t) m).keywords = m.keywords := by
  induction l generalizing m with
  | nil => rfl
  | cons a l ih => simpa [List.foldl_cons, remove_tag_keywords] using
      (ih (MessageProxy.remove_tag cfg m a)).trans (remove_tag_keywords cfg m a)

lemma foldl_add_keywords (cfg : Config) (l : List Label) (m : MsgState) :
    (l.foldl (fun acc t => MessageProxy.add_tag cfg acc t) m).keywords = m.keywords := by
  induction l generalizing m with
  | nil => rfl
  | cons a l ih => simpa [List.foldl_cons, add_tag_keywords] using
      (ih (MessageProxy.add_tag cfg m a)).trans (add_tag_keywords cfg m a)

lemma foldl_remove_tags (cfg : Config) (hr : cfg.dryrun = false) (l : List Label) (m : MsgState) :
    (l.foldl (fun acc t => MessageProxy.remove_tag cfg acc t) m).tags =
      m.tags.filter (fun x => x ∉ l) := by
  induction l generalizing m with
  | nil => simp
  | cons a l ih =>
    rw [List.foldl_cons, ih, remove_tag_tags, hr, if_neg (by simp), List.filter_filter]
    apply List.filter_congr
    intro x _
    by_cases h1 : x = a <;> by_cases h2 : x ∈ l <;> simp [h1, h2]

lemma foldl_add_tags_mem (cfg : Config) (hr : cfg.dryrun = false) (l : List Label)
    (m : MsgState) (x : Label) :
    x ∈ (l.foldl (fun acc t => MessageProxy.add_tag cfg acc t) m).tags ↔
      x ∈ m.tags ∨ x ∈ l := by
  induction l generalizing m with
  | nil => simp
  | cons a l ih =>
    rw [List.foldl_cons, ih]
    rw [add_tag_tags, hr, if_neg (by simp)]
    by_cases h : a ∈ m.tags
    · simp only [if_pos h, List.mem_cons]
      constructor
      · rintro (hx | hx)
        · exact Or.inl hx
        · exact Or.inr (Or.inr hx)
      · rintro (hx | hx | hx)
        · exact Or.inl hx
        · exact Or.inl (hx ▸ h)
        · exact Or.inr hx
    · simp only [if_neg h, List.mem_append, List.mem_singleton, List.mem_cons]
      tauto

lemma foldl_add_tags_noop (cfg : Config) (hr : cfg.dryrun = false) (l : List Label)
    (m : MsgState) (h : ∀ x ∈ l, x ∈ m.tags) :
    (l.foldl (fun acc t => MessageProxy.add_tag cfg acc t) m).tags = m.tags := by
  induction l generalizing m with
  | nil => rfl
  | cons a l ih =>
    rw [List.foldl_cons]
    have ha : (MessageProxy.add_tag cfg m a).tags = m.tags := by
      rw [add_tag_tags, hr, if_neg (by simp), if_pos (h a (List.mem_cons_self a l))]
    rw [ih (MessageProxy.add_tag cfg m a) (fun x hx => ha ▸ h x (List.mem_cons_of_mem a hx)), ha]

lemma sync_gmail_tags_eq (cfg : Config) (m : MsgState) (kws : List Label)
    (hk : m.keywords = some kws) :
    sync_gmail_tags cfg m =
      ((to_add_set m kws).foldl (fun acc t => MessageProxy.add_tag cfg acc t)
         ((to_remove_set m kws).foldl (fun acc t => MessageProxy.remove_tag cfg acc t) m),
       (to_remove_set m kws).map Call.remove ++ (to_add_set m kws).map Call.add) := by
  unfold sync_gmail_tags to_remove_set to_add_set
  rw [hk]

lemma to_remove_set_nodup (m : MsgState) (kws : List Label) : (to_remove_set m kws).Nodup :=
  (List.nodup_dedup _).filter _

lemma to_add_set_nodup (m : MsgState) (kws : List Label) : (to_add_set m kws).Nodup :=
  (List.nodup_dedup _).filter _

lemma mem_internal_tags (m : MsgState) (x : Label) :
    x ∈ internal_tags m ↔ x ∈ m.tags ∧ x ∉ exclude_sync_tags := by
  simp [internal_tags, List.mem_dedup, List.mem_filter]

lemma mem_to_remove_set (m : MsgState) (kws : List Label) (x : Label) :
    x ∈ to_remove_set m kws ↔ x ∈ internal_tags m ∧ x ∉ translate_keywords kws := by
  simp [to_remove_set, List.mem_filter]

lemma mem_to_add_set (m : MsgState) (kws : List Label) (x : Label) :
    x ∈ to_add_set m kws ↔ x ∈ translate_keywords kws ∧ x ∉ internal_tags m := by
  simp [to_add_set, List.mem_filter]

lemma sync_keywords (cfg : Config) (m : MsgState) :
    (sync_gmail_tags cfg m).1.keywords = m.keywords := by
  cases hk : m.keywords with
  | none => unfold sync_gmail_tags; rw [hk]; exact hk
  | some kws =>
    rw [sync_gmail_tags_eq cfg m kws hk]
    simp only [foldl_add_keywords, foldl_remove_keywords, hk]

lemma sync_tags_mem (cfg : Config) (m : MsgState) (kws : List Label)
    (hr : cfg.dryrun = false) (hk : m.keywords = some kws) (x : Label) :
    x ∈ (sync_gmail_tags cfg m).1.tags ↔
      (x ∈ m.tags ∧ x ∉ to_remove_set m kws) ∨ x ∈ to_add_set m kws := by
  rw [sync_gmail_tags_eq cfg m kws hk]
  simp only [foldl_add_tags_mem cfg hr, foldl_remove_tags cfg hr, List.mem_filter]
  simp

lemma second_to_remove_empty (cfg : Config) (m : MsgState) (kws : List Label)
    (hr : cfg.dryrun = false) (hk : m.keywords = some kws) :
    to_remove_set (sync_gmail_tags cfg m).1 kws = [] := by
  unfold to_remove_set
  rw [List.filter_eq_nil_iff]
  intro x hx
  simp only [decide_not, Bool.not_eq_true', decide_eq_false_iff_not, not_not]
  rw [mem_internal_tags] at hx
  obtain ⟨hx1, hx2⟩ := hx
  rw [sync_tags_mem cfg m kws hr hk] at hx1
  rcases hx1 with ⟨hm, hnr⟩ | ha
  · by_contra hnk
    exact hnr ((mem_to_remove_set m kws x).2 ⟨(mem_internal_tags m x).2 ⟨hm, hx2⟩, hnk⟩)
  · exact ((mem_to_add_set m kws x).1 ha).1

lemma second_to_add_subset (cfg : Config) (m : MsgState) (kws : List Label)
    (hr : cfg.dryrun = false) (hk : m.keywords = some kws) :
    ∀ x ∈ to_add_set (sync_gmail_tags cfg m).1 kws, x ∈ (sync_gmail_tags cfg m).1.tags := by
  intro x hx
  rw [mem_to_add_set] at hx
  obtain ⟨hxk, _⟩ := hx
  rw [sync_tags_mem cfg m kws hr hk]
  by_cases hi : x ∈ internal_tags m
  · left
    refine ⟨((mem_internal_tags m x).1 hi).1, fun hrm => ?_⟩
    exact ((mem_to_remove_set m kws x).1 hrm).2 hxk
  · exact Or.inr ((mem_to_add_set m kws x).2 ⟨hxk, hi⟩)

lemma second_to_add_empty (cfg : Config) (m : MsgState) (kws : List Label)
    (hr : cfg.dryrun = false) (hk : m.keywords = some kws)
    (hdisj : ∀ x ∈ translate_keywords kws, x ∉ exclude_sync_tags) :
    to_add_set (sync_gmail_tags cfg m).1 kws = [] := by
  unfold to_add_set
  rw [List.filter_eq_nil_iff]
  intro x hx
  simp only [decide_not, Bool.not_eq_true', decide_eq_false_iff_not, not_not]
  rw [mem_internal_tags]
  refine ⟨?_, hdisj x hx⟩
  rw [sync_tags_mem cfg m kws hr hk]
  by_cases hi : x ∈ internal_tags m
  · left
    refine ⟨((mem_internal_tags m x).1 hi).1, fun hrm => ?_⟩
    exact ((mem_to_remove_set m kws x).1 hrm).2 hx
  · exact Or.inr ((mem_to_add_set m kws x).2 ⟨hx, hi⟩)

lemma count_to_remove (m : MsgState) (kws : List Label) (t : Label) :
    (to_remove_set m kws).count t =
      if t ∈ internal_tags m ∧ t ∉ translate_keywords kws then 1 else 0 := by
  by_cases h : t ∈ to_remove_set m kws
  · rw [if_pos ((mem_to_remove_set m kws t).1 h),
        List.count_eq_one_of_mem (to_remove_set_nodup m kws) h]
  · rw [if_neg (fun hc => h ((mem_to_remove_set m kws t).2 hc)),
        List.count_eq_zero_of_not_mem h]

lemma count_to_add (m : MsgState) (kws : List Label) (t : Label) :
    (to_add_set m kws).count t =
      if t ∈ translate_keywords kws ∧ t ∉ internal_tags m then 1 else 0 := by
  by_cases h : t ∈ to_add_set m kws
  · rw [if_pos ((mem_to_add_set m kws t).1 h),
        List.count_eq_one_of_mem (to_add_set_nodup m kws) h]
  · rw [if_neg (fun hc => h ((mem_to_add_set m kws t).2 hc)),
        List.count_eq_zero_of_not_mem h]

/-- C1: for every message whose external keyword list is readable,
`sync_gmail_tags` issues exactly one remove-call per label in
`internal_tags - translate(external_labels)`, exactly one add-call per label
in `translate(external_labels) - internal_tags`, and no other mutating calls
(the trace length is exactly the sum of the two edit-set sizes), where
`internal_tags` is the indexed tag set with `exclude_sync_tags` filtered
out. -/
theorem C1_sync_minimal_edit_set (cfg : Config) (m : MsgState) (kws : List Label)
    (hk : m.keywords = some kws) :
    (∀ t, ((sync_gmail_tags cfg m).2).count (Call.remove t) =
      if t ∈ internal_tags m ∧ t ∉ translate_keywords kws then 1 else 0) ∧
    (∀ t, ((sync_gmail_tags cfg m).2).count (Call.add t) =
      if t ∈ translate_keywords kws ∧ t ∉ internal_tags m then 1 else 0) ∧
    ((sync_gmail_tags cfg m).2).length =
      (to_remove_set m kws).length + (to_add_set m kws).length := by
  rw [sync_gmail_tags_eq cfg m kws hk]
  refine ⟨fun t => ?_, fun t => ?_, ?_⟩
  · rw [List.count_append,
        List.count_map_of_injective _ Call.remove (fun a b h => by injection h) t]
    have h0 : ((to_add_set m kws).map Call.add).count (Call.remove t) = 0 := by
      rw [List.count_eq_zero]
      simp
    rw [h0, Nat.add_zero, count_to_remove]
  · rw [List.count_append,
        List.count_map_of_injective _ Call.add (fun a b h => by injection h) t]
    have h0 : ((to_remove_set m kws).map Call.remove).count (Call.add t) = 0 := by
      rw [List.count_eq_zero]
      simp
    rw [h0, Nat.zero_add, count_to_add]
  · rw [List.length_append, List.length_map, List.length_map]

/-- C1 witness: on the concrete message `mStarred` (indexed tag `foo`,
keyword `\Starred`), the reconciliation trace contains exactly one removal
of `foo` and has length 2. -/
theorem C1_witness :
    ((sync_gmail_tags ⟨false, false⟩ mStarred).2).count (Call.remove "foo") = 1 ∧
    ((sync_gmail_tags ⟨false, false⟩ mStarred).2).length = 2 := by
  obtain ⟨h1, _, h3⟩ := C1_sync_minimal_edit_set ⟨false, false⟩ mStarred ["\\Starred"] rfl
  constructor
  · rw [h1 "foo"]
    decide
  · rw [h3]
    decide

/-- C2 counterexample: on the message `mStarred` (no index tags beyond `foo`,
keyword `\Starred`, which translates to the excluded tag `flagged`), the
second invocation of `sync_gmail_tags` issues a mutating call again —
`flagged` is re-added on every run because the internal tag set filters it
out while the translated keyword set keeps it. -/
theorem C2_counterexample :
    (sync_gmail_tags ⟨false, false⟩ (sync_gmail_tags ⟨false, false⟩ mStarred).1).2 =
      [Call.add "flagged"] ∧
    [Call.add "flagged"] ≠ ([] : List Call) := by
  constructor <;> decide

/-- C2 (amended): with dry-run off, for every message with a readable
keyword list, the indexed tag state after the first `sync_gmail_tags`
invocation equals the tag state after the second; and the second invocation
issues zero mutating calls provided the translated external labels are
disjoint from `exclude_sync_tags` (without that proviso a keyword
translating into the exclusion set is re-added on every run). -/
theorem C2_sync_idempotent_amended (cfg : Config) (m : MsgState) (kws : List Label)
    (hr : cfg.dryrun = false) (hk : m.keywords = some kws) :
    (sync_gmail_tags cfg (sync_gmail_tags cfg m).1).1.tags = (sync_gmail_tags cfg m).1.tags ∧
    ((∀ x ∈ translate_keywords kws, x ∉ exclude_sync_tags) →
      (sync_gmail_tags cfg (sync_gmail_tags cfg m).1).2 = []) := by
  have hk1 : (sync_gmail_tags cfg m).1.keywords = some kws := by
    rw [sync_keywords]; exact hk
  have heq := sync_gmail_tags_eq cfg (sync_gmail_tags cfg m).1 kws hk1
  have hre := second_to_remove_empty cfg m kws hr hk
  constructor
  · rw [heq]
    simp only [hre, List.foldl_nil]
    exact foldl_add_tags_noop cfg hr _ _ (second_to_add_subset cfg m kws hr hk)
  · intro hdisj
    rw [heq]
    simp only [hre, second_to_add_empty cfg m kws hr hk hdisj, List.map_nil, List.nil_append]

/-- C2 witness: on the concrete message `mCustom` (tag `foo`, unmapped
keyword `custom`, disjoint from the exclusion set) the second
`sync_gmail_tags` run issues no mutating call. -/
theorem C2_witness :
    (sync_gmail_tags ⟨false, false⟩ (sync_gmail_tags ⟨false, false⟩ mCustom).1).2 = [] :=
  (C2_sync_idempotent_amended ⟨false, false⟩ mCustom ["custom"] rfl rfl).2 (by decide)

lemma record_add_indexCalls (cfg : Config) (m : MsgState) (t : Label) :
    (record_add cfg m t).indexCalls = m.indexCalls := by
  unfold record_add; split <;> rfl

lemma record_remove_indexCalls (cfg : Config) (m : MsgState) (t : Label) :
    (record_remove cfg m t).indexCalls = m.indexCalls := by
  unfold record_remove; split <;> rfl

/-- C3: with dry-run active, neither `add_tag` nor `remove_tag` forwards the
mutation to the underlying index handle — each completes inside the proxy
returning `notmuch.STATUS.SUCCESS` with the index tag state and the list of
forwarded calls untouched — while with debug also active the `added` /
`removed` observation sets still record the would-be edits (as the decorated
entries written by the source). -/
theorem C3_dryrun_isolation (cfg : Config) (m : MsgState) (t : Label)
    (hr : cfg.dryrun = true) (ht : t ≠ "") :
    add_tag_entry cfg m (some t) = .success (record_add cfg m t) ∧
    remove_tag_entry cfg m (some t) = .success (record_remove cfg m t) ∧
    (record_add cfg m t).tags = m.tags ∧
    (record_add cfg m t).indexCalls = m.indexCalls ∧
    (record_remove cfg m t).tags = m.tags ∧
    (record_remove cfg m t).indexCalls = m.indexCalls ∧
    MessageProxy.add_tag cfg m t = record_add cfg m t ∧
    MessageProxy.remove_tag cfg m t = record_remove cfg m t ∧
    (cfg.debug = true →
      ("+" ++ t) ∈ (record_add cfg m t).addObs ∧
      ("-" ++ t) ∈ (record_remove cfg m t).removeObs) := by
  refine ⟨?_, ?_, record_add_tags cfg m t, record_add_indexCalls cfg m t,
          record_remove_tags cfg m t, record_remove_indexCalls cfg m t, ?_, ?_, ?_⟩
  · simp [add_tag_entry, ht, hr]
  · simp [remove_tag_entry, hr]
  · simp [MessageProxy.add_tag, hr]
  · simp [MessageProxy.remove_tag, hr]
  · intro hd
    unfold record_add record_remove
    rw [hd]
    exact ⟨Finset.mem_insert_self _ _, Finset.mem_insert_self _ _⟩

/-- C3 witness: on the blank message with debug and dry-run both active,
adding the tag `x` succeeds inside the proxy and records `+x`. -/
theorem C3_witness :
    add_tag_entry ⟨true, true⟩ mBlank (some "x") =
      .success (record_add ⟨true, true⟩ mBlank "x") ∧
    ("+" ++ "x") ∈ (record_add ⟨true, true⟩ mBlank "x").addObs := by
  obtain ⟨h1, _, _, _, _, _, _, _, h9⟩ :=
    C3_dryrun_isolation ⟨true, true⟩ mBlank "x" rfl (by decide)
  exact ⟨h1, (h9 rfl).1⟩

/-- C4: when a message file carries no `X-Keywords:` marker (the spec's
`MissingMetadataError`, raised as `AttributeError` by `_get_keywords` and
caught inside the stage), `sync_gmail_tags` returns the envelope unchanged
and issues no mutating call; the stage returns normally, so processing
continues. -/
theorem C4_missing_metadata_untouched (cfg : Config) (m : MsgState)
    (hk : m.keywords = none) :
    sync_gmail_tags cfg m = (m, []) := by
  unfold sync_gmail_tags
  rw [hk]

/-- C4 witness: the concrete message `mNoKw` (tag `foo`, no keywords header)
passes through `sync_gmail_tags` untouched, with an empty call trace. -/
theorem C4_witness : sync_gmail_tags ⟨true, false⟩ mNoKw = (mNoKw, []) :=
  C4_missing_metadata_untouched ⟨true, false⟩ mNoKw rfl

/-- C5: evaluating `process_pipeline` at the failing input (a query matching
no messages, surfaced by notmuch as `NullPointerError`): the empty-result
condition is logged, but the handler then evaluates `pipeline.close()` and
the `Pipeline` class defines only `__init__` and `send`, so the attribute
lookup raises `AttributeError` — the run crashes instead of delivering a
close signal to the stages. -/
theorem C5_empty_result_crash :
    process_pipeline none logSink ([] : List String) =
      (["Query returned no results"], Except.error PyError.attributeError) ∧
    pipelineHasAttr "close" = false := by
  constructor <;> rfl

/-- C6 counterexample: `remove_tag` called with an empty label does not fail
with the spec's `InvariantViolationError` — with debug off and dry-run on it
completes normally, returning success. -/
theorem C6_counterexample :
    remove_tag_entry ⟨false, true⟩ mBlank (some "") = .success mBlank ∧
    EntryOutcome.success mBlank ≠ .raised .assertionError := by
  constructor <;> decide

/-- C6 (amended): only `add_tag` validates its label — it fails with
`AssertionError` (the spec's `InvariantViolationError`) on an undefined
(`None`) or empty label.  `remove_tag` performs no such validation: it never
raises `AssertionError`; an undefined label only fails incidentally with
`TypeError` when debug mode builds the observation entry. -/
theorem C6_label_validation_amended (cfg : Config) (m : MsgState) :
    add_tag_entry cfg m none = .raised .assertionError ∧
    add_tag_entry cfg m (some "") = .raised .assertionError ∧
    (∀ t, remove_tag_entry cfg m t ≠ .raised .assertionError) ∧
    (cfg.debug = true → remove_tag_entry cfg m none = .raised .typeError) := by
  refine ⟨rfl, by simp [add_tag_entry], fun t => ?_, fun hd => by simp [remove_tag_entry, hd]⟩
  cases t with
  | none =>
    unfold remove_tag_entry
    cases hdb : cfg.debug <;> cases hdr : cfg.dryrun <;> simp [hdb, hdr]
  | some s =>
    unfold remove_tag_entry
    cases hdr : cfg.dryrun <;> simp [hdr]

/-- C6 witness: on the blank message with debug and dry-run active, a `None`
label makes `add_tag` fail with the assertion error and `remove_tag` fail
with a type error instead. -/
theorem C6_witness :
    add_tag_entry ⟨true, true⟩ mBlank none = .raised .assertionError ∧
    remove_tag_entry ⟨true, true⟩ mBlank none = .raised .typeError := by
  obtain ⟨h1, _, _, h4⟩ := C6_label_validation_amended ⟨true, true⟩ mBlank
  exact ⟨h1, h4 rfl⟩

lemma strip_signatures_loop_no_match (lines : List String)
    (h : ∀ l ∈ lines, signature_line_match l = false) (n cnt maxsig : Nat) :
    strip_signatures_loop lines n 0 cnt maxsig = 0 := by
  induction lines generalizing n cnt with
  | nil => rfl
  | cons a rest ih =>
    have hA := h a (List.mem_cons_self a rest)
    unfold strip_signatures_loop
    simp only [hA, Bool.false_eq_true, if_false]
    show (if cnt ≥ maxsig then 0
          else strip_signatures_loop rest (n + 1) 0 (cnt + 1) maxsig) = 0
    split
    · rfl
    · exact ih (fun l hl => h l (List.mem_cons_of_mem a hl)) _ _

lemma strip_signatures_no_match (lines : List String) (maxsig : Nat)
    (h : ∀ l ∈ lines, signature_line_match l = false) :
    strip_signatures lines maxsig = [] := by
  unfold strip_signatures
  rw [strip_signatures_loop_no_match lines.reverse
        (fun l hl => h l (List.mem_reverse.1 hl)) 0 0 maxsig]
  rfl

/-- C7: evaluating `_strip_signatures` at inputs in which no line matches a
signature-delimiter pattern: the routine returns the empty list, not the
line list unchanged, because `lines[:-siglines]` with `siglines = 0` is
`lines[:0]` (see also `strip_signatures_no_match` for the general fact). -/
theorem C7_no_delimiter_empties :
    strip_signatures ["Huhu"] = [] ∧
    strip_signatures ["Line one", "Line two"] = [] ∧
    ["Huhu"] ≠ ([] : List String) := by
  refine ⟨by decide, by decide, by decide⟩

lemma pipeline_build_cons {σ : Type} (hd : Consumer σ → Consumer σ)
    (tl : List (Consumer σ → Consumer σ)) (term : Consumer σ) :
    Pipeline.build (hd :: tl) term = hd (Pipeline.build tl term) := by
  unfold Pipeline.build
  rw [List.reverse_cons, List.foldl_append]
  rfl

lemma pipeline_log_chain (names : List String) (m : MsgState) (s : List String) :
    Pipeline.build (names.map logStage) logSink m s = s ++ names := by
  induction names generalizing s with
  | nil => simp [Pipeline.build, logSink, sink]
  | cons a rest ih =>
    rw [List.map_cons, pipeline_build_cons]
    have hstep : (logStage a (Pipeline.build (rest.map logStage) logSink)) m s =
        Pipeline.build (rest.map logStage) logSink m (s ++ [a]) := rfl
    rw [hstep, ih (s ++ [a])]
    simp

/-- C8: `Pipeline` construction composes the stage list right-to-left — the
terminal seeds the fold and each stage is bound to the consumer built so
far — and one `send` drives the message through the stages in list order,
each exactly once, then the terminal, as shown by a chain of logging stages
recording exactly the stage-name list; in particular a 3-element chain whose
stages log `A` then `B` yields log order `["A", "B"]`. -/
theorem C8_pipeline_composition_order :
    (∀ (σ : Type) (hd : Consumer σ → Consumer σ) (tl : List (Consumer σ → Consumer σ))
       (term : Consumer σ), Pipeline.build (hd :: tl) term = hd (Pipeline.build tl term)) ∧
    (∀ (names : List String) (m : MsgState),
       Pipeline.build (names.map logStage) logSink m [] = names) ∧
    (∀ m : MsgState,
       Pipeline.build [logStage "A", logStage "B"] logSink m [] = ["A", "B"]) :=
  ⟨fun _ hd tl term => pipeline_build_cons hd tl term,
   fun names m => by simpa using pipeline_log_chain names m [],
   fun m => by simpa using pipeline_log_chain ["A", "B"] m []⟩

/-- C8 witness: the 3-element chain evaluated on a concrete message. -/
theorem C8_witness :
    Pipeline.build [logStage "A", logStage "B"] logSink mBlank [] = ["A", "B"] :=
  C8_pipeline_composition_order.2.2 mBlank

/-- C9 counterexample: the `added` observation set records the decorated
entry `+important`, not the label name `important` that was passed to
`add_tag`. -/
theorem C9_counterexample :
    ("+important") ∈ (MessageProxy.add_tag ⟨true, true⟩ mBlank "important").addObs ∧
    "important" ∉ (MessageProxy.add_tag ⟨true, true⟩ mBlank "important").addObs := by
  constructor <;> decide

/-- C9 (amended): the `added` / `removed` observation sets are populated
exactly when debug mode is active and contain the label names prefixed with
`+` / `-`; recording mirrors rather than replaces the real mutation — with
dry-run off the mutation is still forwarded to the underlying index
regardless of debug mode. -/
theorem C9_observation_sets_amended (cfg : Config) (m : MsgState) (t : Label) :
    (MessageProxy.add_tag cfg m t).addObs =
      (if cfg.debug then insert ("+" ++ t) m.addObs else m.addObs) ∧
    (MessageProxy.remove_tag cfg m t).removeObs =
      (if cfg.debug then insert ("-" ++ t) m.removeObs else m.removeObs) ∧
    (MessageProxy.add_tag cfg m t).tags =
      (if cfg.dryrun then m.tags else if t ∈ m.tags then m.tags else m.tags ++ [t]) ∧
    (MessageProxy.remove_tag cfg m t).tags =
      (if cfg.dryrun then m.tags else m.tags.filter (fun x => x ≠ t)) ∧
    (MessageProxy.add_tag cfg m t).indexCalls =
      (if cfg.dryrun then m.indexCalls else m.indexCalls ++ [Call.add t]) ∧
    (MessageProxy.remove_tag cfg m t).indexCalls =
      (if cfg.dryrun then m.indexCalls else m.indexCalls ++ [Call.remove t]) := by
  cases hdb : cfg.debug <;> cases hdr : cfg.dryrun <;>
    simp [MessageProxy.add_tag, MessageProxy.remove_tag, record_add, record_remove, hdb, hdr]

/-- C9 witness: with debug on and dry-run off, adding `x` to the blank
message records `+x` and still forwards the mutation to the index. -/
theorem C9_witness :
    (MessageProxy.add_tag ⟨true, false⟩ mBlank "x").addObs = insert ("+" ++ "x") ∅ ∧
    (MessageProxy.add_tag ⟨true, false⟩ mBlank "x").indexCalls = [Call.add "x"] := by
  obtain ⟨h1, _, _, _, h5, _⟩ := C9_observation_sets_amended ⟨true, false⟩ mBlank "x"
  exact ⟨h1.trans (by decide), h5.trans (by decide)⟩

/-- C10: every remove-call issued by `sync_gmail_tags` targets a label
outside the exclusion set: no removal is ever issued for `new`, `unread`,
`draft`, `flagged`, `passed`, `signed` or `replied`, because removals are
drawn from the internal tag set after those tags are filtered out. -/
theorem C10_no_excluded_removals (cfg : Config) (m : MsgState) (t : Label)
    (h : Call.remove t ∈ (sync_gmail_tags cfg m).2) :
    t ∉ ({"new", "unread", "draft", "flagged", "passed", "signed", "replied"} :
           Finset Label) := by
  have hset : ({"new", "unread", "draft", "flagged", "passed", "signed", "replied"} :
      Finset Label) = exclude_sync_tags := by decide
  rw [hset]
  cases hk : m.keywords with
  | none =>
    unfold sync_gmail_tags at h
    rw [hk] at h
    exact absurd h (List.not_mem_nil _)
  | some kws =>
    rw [sync_gmail_tags_eq cfg m kws hk] at h
    simp only [List.mem_append, List.mem_map] at h
    rcases h with ⟨x, hx, hex⟩ | ⟨x, hx, hex⟩
    · have hxt : x = t := by injection hex
      rw [← hxt]
      exact ((mem_internal_tags m x).1 ((mem_to_remove_set m kws x).1 hx).1).2
    · exact absurd hex (by simp)

/-- C10 witness: on `mStarred` a removal of the non-excluded tag `foo` is
issued, and `foo` is indeed outside the exclusion set. -/
theorem C10_witness :
    Call.remove "foo" ∈ (sync_gmail_tags ⟨false, false⟩ mStarred).2 ∧
    "foo" ∉ ({"new", "unread", "draft", "flagged", "passed", "signed", "replied"} :
      Finset Label) :=
  ⟨by decide, C10_no_excluded_removals ⟨false, false⟩ mStarred "foo" (by decide)⟩
